import Mathlib

/-
Verification development for the pyglet-gui theme module
(pyglet_gui/theme.py).

The module has three parts that the development models:

1. `ScopedDict`: a dict subclass with a `parent` pointer.  Lookup of a key
   missing locally falls through to the parent chain; list/tuple keys are
   interpreted as paths.  We model a ScopedDict as the observable state of
   one Python object: its local entries (an association list) plus a
   snapshot of its parent object (a `Parent` reference).  Python exceptions
   (KeyError, TypeError/AttributeError, IndexError) are modelled with an
   explicit error type in `Except`.

2. The 9-slice frame geometry of `FrameTextureGraphicElement`
   (`_get_vertices`, `get_content_size`, `get_needed_size`) and the
   element lifecycle shared with `TextureGraphicElement`
   (`_load`, `unload`, `update`).  Python integers are modelled as `Int`.
   A live vertex-buffer allocation is modelled as `Option` of the vertex
   data last written; `none` models `self._vertex_list is None`.

3. The `Theme` texture cache (`_get_texture`, `_get_texture_region`).
   Texture objects are modelled by allocation identifiers (`Nat`), with a
   `ThemeState` carrying the `_textures` cache, a fresh-id allocator
   (object identity: two ids are equal iff the Python objects are the
   same object), and the log of decoder (`loader.texture`) invocations.
   Per the external pyglet contract, `texture.get_region(...)` produces a
   NEW sub-region texture object on every call; this is modelled as a
   fresh allocation.
-/

namespace PygletGui

/-- Python exceptions that the modelled code can raise. -/
inductive PyErr where
  | keyError : PyErr
  | typeError : PyErr
  | attributeError : PyErr
  | indexError : PyErr
deriving DecidableEq

mutual

/-- A value stored in a `ScopedDict`: Python `None`, an opaque scalar
leaf (colors, numbers, ... modelled as `Int`), or a nested `ScopedDict`. -/
inductive Val where
  | pynone : Val
  | leaf : Int → Val
  | dict : ScopedDict → Val

/-- The local entries of a dict, in insertion order (an association
list; a dedicated type rather than `List (String × Val)` so that the
whole family is a plain mutual inductive). -/
inductive Entries where
  | nil : Entries
  | cons : String → Val → Entries → Entries

/-- Observable state of one `ScopedDict` object: its local entries and
a snapshot of its `parent` attribute. -/
inductive ScopedDict where
  | mk : Entries → Parent → ScopedDict

/-- The `parent` attribute of a `ScopedDict`: `null` models
`parent is None`, `link P` models a reference to the parent object
whose observable state is `P`. -/
inductive Parent where
  | null : Parent
  | link : ScopedDict → Parent

end

/-- The local entries of the dict (the contents of the underlying
built-in `dict`). -/
def ScopedDict.entriesOf : ScopedDict → Entries
  | .mk es _ => es

/-- The `parent` attribute. -/
def ScopedDict.parentOf : ScopedDict → Parent
  | .mk _ p => p

/-- Python truthiness of the dict: `bool(d)` is `len(d) > 0`. -/
def Entries.isEmpty : Entries → Bool
  | .nil => true
  | .cons _ _ _ => false

/-- Lookup in the local entries only: `dict.__getitem__(self, key)` /
`key in self`.  First match wins (keys are unique in a real dict). -/
def lookupEntries : Entries → String → Option Val
  | .nil, _ => none
  | .cons k' v rest, k => if k = k' then some v else lookupEntries rest k

/-- Insert or overwrite a key in the local entries:
`dict.__setitem__(self, key, value)`.  An existing key keeps its
position; a new key is appended (Python dict insertion order). -/
def upsertEntries : Entries → String → Val → Entries
  | .nil, k, v => .cons k v .nil
  | .cons k' v' rest, k, v =>
      if k = k' then .cons k v rest else .cons k' v' (upsertEntries rest k v)

/-- `ScopedDict.__getitem__` on a single (non-list) key, theme.py lines
231-238: local hit wins; on a local miss delegate to the parent when
`self.parent is not None` (note: an identity test, so an *empty* parent
is still consulted); at the root raise KeyError. -/
def ScopedDict.getItem : ScopedDict → String → Except PyErr Val
  | .mk es p, k =>
    match lookupEntries es k with
    | some v => .ok v
    | none =>
      match p with
      | .link par => par.getItem k
      | .null => .error .keyError

/-- `ScopedDict.__getitem__` on a list key, theme.py lines 222-230.
`key is None` and the empty list both return `self`; a longer list
recurses `self[key[0]][key[1:]]`.  Indexing a non-dict intermediate
value with a list raises TypeError. -/
def ScopedDict.getItemPath (sd : ScopedDict) (p : List String) : Except PyErr Val :=
  match p with
  | [] => .ok (Val.dict sd)
  | [k] => sd.getItem k
  | k :: rest =>
    match sd.getItem k with
    | .ok (Val.dict d) => d.getItemPath rest
    | .ok _ => .error .typeError
    | .error e => .error e

/-- `ScopedDict.get` on a single (non-list) key, theme.py lines 255-260:
local hit wins; on a local miss delegate to the parent when
`self.parent` is *truthy* (`elif self.parent:`), i.e. the parent exists
AND is non-empty; otherwise return the caller-supplied default.
Single-key `get` never raises. -/
def ScopedDict.get : ScopedDict → String → Val → Val
  | .mk es p, k, dflt =>
    match lookupEntries es k with
    | some v => v
    | none =>
      match p with
      | .link par => if par.entriesOf.isEmpty then dflt else par.get k dflt
      | .null => dflt

/-- `ScopedDict.get` on a list key, theme.py lines 247-253: the empty
list raises `KeyError(key)`; a singleton defers to single-key `get`;
a longer list recurses `self.__getitem__(key[0]).get(key[1:], default)`
(note: the *leading* segment goes through `__getitem__`, not `get`).
Calling `.get` on a non-dict intermediate raises AttributeError. -/
def ScopedDict.getList (sd : ScopedDict) (p : List String) (dflt : Val) : Except PyErr Val :=
  match p with
  | [] => .error .keyError
  | [k] => .ok (sd.get k dflt)
  | k :: rest =>
    match sd.getItem k with
    | .ok (Val.dict d) => d.getList rest dflt
    | .ok _ => .error .attributeError
    | .error e => .error e

/-- `ScopedDict.get_path`, theme.py lines 262-267: asserts the key is a
list; a singleton defers to single-key `get`; otherwise recurses
`self.__getitem__(path[0]).get_path(path[1:], default)`.  The empty list
reaches `path[0]` and raises IndexError. -/
def ScopedDict.get_path (sd : ScopedDict) (p : List String) (dflt : Val) : Except PyErr Val :=
  match p with
  | [] => .error .indexError
  | [k] => .ok (sd.get k dflt)
  | k :: rest =>
    match sd.getItem k with
    | .ok (Val.dict d) => d.get_path rest dflt
    | .ok _ => .error .attributeError
    | .error e => .error e

/-- `ScopedDict.__setitem__` restricted to the store it is called on:
`dict.__setitem__(self, key, value)` writes into the local entries only;
the parent attribute and every other object are untouched.  (For a
mapping value the source wraps it as `ScopedDict(value, self)` first;
in this model values are already structured and the claims under check
do not observe the stored child's parent snapshot.) -/
def ScopedDict.setItem (sd : ScopedDict) (k : String) (v : Val) : ScopedDict :=
  .mk (upsertEntries sd.entriesOf k v) sd.parentOf

/-- `ScopedDict.set_path`, theme.py lines 269-274: a singleton path does
a local `__setitem__`; otherwise it recurses
`self.__getitem__(path[0]).set_path(path[1:], value)`.  The result is
the post-write state of the *reached* store (the single object the final
`dict.__setitem__` mutates); every other object keeps its state.  The
empty list reaches `path[0]` and raises IndexError; a non-dict
intermediate has no `set_path` attribute. -/
def ScopedDict.set_path (sd : ScopedDict) (p : List String) (v : Val) : Except PyErr ScopedDict :=
  match p with
  | [] => .error .indexError
  | [k] => .ok (sd.setItem k v)
  | k :: rest =>
    match sd.getItem k with
    | .ok (Val.dict d) => d.set_path rest v
    | .ok _ => .error .attributeError
    | .error e => .error e

/-- Resolution of the leading segments of a path, each through
`__getitem__` as in `get`, `get_path` and `set_path`. -/
def navigateSegs (sd : ScopedDict) (p : List String) : Except PyErr ScopedDict :=
  match p with
  | [] => .ok sd
  | k :: rest =>
    match sd.getItem k with
    | .ok (Val.dict d) => navigateSegs d rest
    | .ok _ => .error .attributeError
    | .error e => .error e

/-- Applying a further `[key]` to the result of an indexing expression,
as in `theme[[]][key]`: propagate an exception, index a dict, and fail
with TypeError on a scalar. -/
def indexVal (r : Except PyErr Val) (k : String) : Except PyErr Val :=
  match r with
  | .ok (Val.dict d) => d.getItem k
  | .ok _ => .error .typeError
  | .error e => .error e

/-- State of a `FrameTextureGraphicElement` (theme.py lines 126-192):
position, current outer size, the margins `(left, right, top, bottom)`
fixed at generation time, the padding `(left, right, top, bottom)`, and
the outer texture's pixel dimensions. -/
structure FrameTextureGraphicElement where
  x : Int
  y : Int
  width : Int
  height : Int
  marginLeft : Int
  marginRight : Int
  marginTop : Int
  marginBottom : Int
  padLeft : Int
  padRight : Int
  padTop : Int
  padBottom : Int
  outerWidth : Int
  outerHeight : Int
deriving DecidableEq

/-- `FrameTextureGraphicElement._get_vertices`, theme.py lines 163-178:
the 36 vertex positions (four per cell, nine cells in the order
bottom-left, bottom, bottom-right, left, center, right, top-left, top,
top-right), computed from `x1..x4`, `y1..y4`. -/
def FrameTextureGraphicElement.get_vertices (e : FrameTextureGraphicElement) :
    List (Int × Int) :=
  let x1 := e.x
  let y1 := e.y
  let x2 := x1 + e.marginLeft
  let y2 := y1 + e.marginBottom
  let x3 := x1 + e.width - e.marginRight
  let y3 := y1 + e.height - e.marginTop
  let x4 := x1 + e.width
  let y4 := y1 + e.height
  [(x1, y1), (x2, y1), (x2, y2), (x1, y2),
   (x2, y1), (x3, y1), (x3, y2), (x2, y2),
   (x3, y1), (x4, y1), (x4, y2), (x3, y2),
   (x1, y2), (x2, y2), (x2, y3), (x1, y3),
   (x2, y2), (x3, y2), (x3, y3), (x2, y3),
   (x3, y2), (x4, y2), (x4, y3), (x3, y3),
   (x1, y3), (x2, y3), (x2, y4), (x1, y4),
   (x2, y3), (x3, y3), (x3, y4), (x2, y4),
   (x3, y3), (x4, y3), (x4, y4), (x3, y4)]

/-- The four column boundaries of the 9-slice grid:
`x, x+left, x+width-right, x+width`. -/
def colBound (e : FrameTextureGraphicElement) (n : Nat) : Int :=
  if n = 0 then e.x
  else if n = 1 then e.x + e.marginLeft
  else if n = 2 then e.x + e.width - e.marginRight
  else e.x + e.width

/-- The four row boundaries of the 9-slice grid:
`y, y+bottom, y+height-top, y+height`. -/
def rowBound (e : FrameTextureGraphicElement) (n : Nat) : Int :=
  if n = 0 then e.y
  else if n = 1 then e.y + e.marginBottom
  else if n = 2 then e.y + e.height - e.marginTop
  else e.y + e.height

/-- The four corners of grid cell `(i, j)` (column `i`, row `j`, both in
`0..2`), in the per-cell order the source emits: lower-left,
lower-right, upper-right, upper-left. -/
def cellCorners (e : FrameTextureGraphicElement) (i j : Nat) : List (Int × Int) :=
  [(colBound e i, rowBound e j), (colBound e (i + 1), rowBound e j),
   (colBound e (i + 1), rowBound e (j + 1)), (colBound e i, rowBound e (j + 1))]

/-- Membership of the point `(px, py)` in grid cell `(i, j)`, half-open
on the right and the top so that adjacent cells do not overlap. -/
def inCell (e : FrameTextureGraphicElement) (i j : Nat) (px py : Int) : Prop :=
  colBound e i ≤ px ∧ px < colBound e (i + 1) ∧
  rowBound e j ≤ py ∧ py < rowBound e (j + 1)

/-- The 9-slice geometry property of one frame element: (1) the 36
vertices of `_get_vertices` are exactly the corner lists of the nine
grid cells whose column boundaries are `x, x+left, x+width-right,
x+width` and whose row boundaries are `y, y+bottom, y+height-top,
y+height`; (2) the nine half-open cells cover the half-open outer
rectangle; (3) distinct cells never share a point; (4) every cell lies
inside the outer rectangle; (5) the corner cells have widths
`left`/`right` and heights `bottom`/`top`, independent of the outer
size. -/
def NineSliceTiling (e : FrameTextureGraphicElement) : Prop :=
  (e.get_vertices =
      cellCorners e 0 0 ++ cellCorners e 1 0 ++ cellCorners e 2 0 ++
      cellCorners e 0 1 ++ cellCorners e 1 1 ++ cellCorners e 2 1 ++
      cellCorners e 0 2 ++ cellCorners e 1 2 ++ cellCorners e 2 2) ∧
  (∀ px py : Int,
      (e.x ≤ px ∧ px < e.x + e.width ∧ e.y ≤ py ∧ py < e.y + e.height) ↔
      ∃ i j, i < 3 ∧ j < 3 ∧ inCell e i j px py) ∧
  (∀ i j i' j' px py, i < 3 → j < 3 → i' < 3 → j' < 3 →
      inCell e i j px py → inCell e i' j' px py → i = i' ∧ j = j') ∧
  (colBound e 1 - colBound e 0 = e.marginLeft ∧
   colBound e 3 - colBound e 2 = e.marginRight ∧
   rowBound e 1 - rowBound e 0 = e.marginBottom ∧
   rowBound e 3 - rowBound e 2 = e.marginTop)

/-- `FrameTextureGraphicElement.get_content_size`, theme.py lines
185-187: inset a candidate outer size by the padding. -/
def FrameTextureGraphicElement.get_content_size (e : FrameTextureGraphicElement)
    (width height : Int) : Int × Int :=
  (width - e.padLeft - e.padRight, height - e.padTop - e.padBottom)

/-- `FrameTextureGraphicElement.get_needed_size`, theme.py lines
189-192: per-axis maximum of content-plus-padding and the outer
texture's natural size. -/
def FrameTextureGraphicElement.get_needed_size (e : FrameTextureGraphicElement)
    (contentWidth contentHeight : Int) : Int × Int :=
  (max (contentWidth + e.padLeft + e.padRight) e.outerWidth,
   max (contentHeight + e.padTop + e.padBottom) e.outerHeight)

/-- The round-trip property of `get_needed_size` and `get_content_size`
for one frame element and one requested content size: the content size
recovered from the needed outer size dominates the request
componentwise, and `get_needed_size` is the per-axis maximum of
content-plus-padding and the outer texture's natural size. -/
def NeededSizeRoundTrip (e : FrameTextureGraphicElement) (cw ch : Int) : Prop :=
  cw ≤ (e.get_content_size (e.get_needed_size cw ch).1 (e.get_needed_size cw ch).2).1 ∧
  ch ≤ (e.get_content_size (e.get_needed_size cw ch).1 (e.get_needed_size cw ch).2).2 ∧
  e.get_needed_size cw ch =
    (max (cw + e.padLeft + e.padRight) e.outerWidth,
     max (ch + e.padTop + e.padBottom) e.outerHeight)

/-- State of a `TextureGraphicElement` (theme.py lines 104-123), the
concrete element whose lifecycle methods `_load` / `unload` / `update`
are shared with the whole `GraphicElement` hierarchy (lines 58-101):
bounds, the live vertex-buffer allocation (`none` models
`self._vertex_list is None`) holding the vertex data last written, and
whether `self._group` is still set. -/
structure TextureGraphicElement where
  x : Int
  y : Int
  width : Int
  height : Int
  vertexList : Option (List (Int × Int))
  groupLive : Bool
deriving DecidableEq

/-- `TextureGraphicElement._get_vertices`, theme.py lines 120-123: one
quad. -/
def TextureGraphicElement.get_vertices (e : TextureGraphicElement) :
    List (Int × Int) :=
  [(e.x, e.y), (e.x + e.width, e.y),
   (e.x + e.width, e.y + e.height), (e.x, e.y + e.height)]

/-- `TextureGraphicElement._load`, theme.py lines 113-118:
`assert self._vertex_list is None` (a second `_load` without an
intervening `unload` fails the assertion, modelled as `none`), then
allocate and write the vertices. -/
def TextureGraphicElement.load (e : TextureGraphicElement) :
    Option TextureGraphicElement :=
  match e.vertexList with
  | some _ => none
  | none => some { e with vertexList := some e.get_vertices }

/-- `GraphicElement.unload`, theme.py lines 84-87: delete the vertex
list and clear `_vertex_list` and `_group`.  (`self._vertex_list.delete()`
on an already-unloaded element would itself be an AttributeError on
`None`, modelled as `none`.) -/
def TextureGraphicElement.unload (e : TextureGraphicElement) :
    Option TextureGraphicElement :=
  match e.vertexList with
  | none => none
  | some _ => some { e with vertexList := none, groupLive := false }

/-- `GraphicElement.update`, theme.py lines 98-101: store the new
bounds unconditionally; rewrite the vertices only
`if self._vertex_list is not None`.  No code path raises, so the result
is always `some`. -/
def TextureGraphicElement.update (e : TextureGraphicElement)
    (x y width height : Int) : Option TextureGraphicElement :=
  let e2 := { e with x := x, y := y, width := width, height := height }
  match e2.vertexList with
  | some _ => some { e2 with vertexList := some e2.get_vertices }
  | none => some e2

/-- State of the `Theme` texture machinery (theme.py lines 284, 299-324):
the `_textures` cache mapping a filename to the texture object it holds
(objects are modelled by allocation ids), the next fresh object id, and
the log of `loader.texture` decoder calls in order. -/
structure ThemeState where
  textures : List (String × Nat)
  nextId : Nat
  decodes : List String
deriving DecidableEq

/-- Lookup in the `_textures` cache. -/
def cacheLookup : List (String × Nat) → String → Option Nat
  | [], _ => none
  | (f, t) :: rest, fn => if fn = f then some t else cacheLookup rest fn

/-- `Theme._get_texture`, theme.py lines 299-308: return the cached
texture object for `filename`; on a miss, decode it with
`self.loader.texture(filename)` (a fresh object, logged) and cache it. -/
def themeGetTexture (s : ThemeState) (filename : String) : Nat × ThemeState :=
  match cacheLookup s.textures filename with
  | some tid => (tid, s)
  | none =>
      (s.nextId,
       { textures := (filename, s.nextId) :: s.textures,
         nextId := s.nextId + 1,
         decodes := s.decodes ++ [filename] })

/-- `Theme._get_texture_region`, theme.py lines 310-324: fetch (or
reuse from the cache) the whole texture for `filename`, then build the
region via `texture.get_region(x, y, width, height).get_texture()`.
Per the external texture contract, `get_region` produces a NEW
sub-region texture object on every call; nothing caches it.  The region
coordinates only decorate the fresh object (`retval.region = ...`) and
play no role in allocation. -/
def themeGetTextureRegion (s : ThemeState) (filename : String)
    (_x _y _width _height : Int) : Nat × ThemeState :=
  let r := themeGetTexture s filename
  (r.2.nextId, { r.2 with nextId := r.2.nextId + 1 })

/-- A Python value as seen by the attribute accesses in
`TextureGraphicElementTemplate.__init__`: `None`, a number, a texture
object (id, width, height), or the `Theme` instance itself (a dict
subclass, which has no `width`/`height` attribute). -/
inductive PyVal where
  | pynone : PyVal
  | int : Int → PyVal
  | tex : Nat → Int → Int → PyVal
  | themeObj : PyVal
deriving DecidableEq

/-- Python truthiness of a `PyVal` as used by the `or` expressions in
the template constructor.  (The theme instance under construction is
non-empty in every scenario the claims exercise.) -/
def pyTruthy : PyVal → Bool
  | .pynone => false
  | .int n => n ≠ 0
  | .tex _ _ _ => true
  | .themeObj => true

/-- The `width` attribute of a `PyVal`; `none` models AttributeError. -/
def widthAttr : PyVal → Option PyVal
  | .tex _ w _ => some (.int w)
  | _ => none

/-- The `height` attribute of a `PyVal`; `none` models AttributeError. -/
def heightAttr : PyVal → Option PyVal
  | .tex _ _ h => some (.int h)
  | _ => none

/-- A constructed `TextureGraphicElementTemplate`: the values of its
`texture`, `width` and `height` fields. -/
structure TextureGraphicElementTemplate where
  texture : PyVal
  width : PyVal
  height : PyVal
deriving DecidableEq

/-- `TextureGraphicElementTemplate.__init__`, theme.py lines 30-36:
`self.texture = texture; self.width = width or texture.width;
self.height = height or texture.height`, with Python short-circuit `or`
(the attribute is only read when the argument is falsy).  `none` models
the constructor raising (AttributeError). -/
def textureTemplateInit (texture width height : PyVal) :
    Option TextureGraphicElementTemplate :=
  match (if pyTruthy width then some width else widthAttr texture) with
  | none => none
  | some w =>
    match (if pyTruthy height then some height else heightAttr texture) with
    | none => none
    | some h => some ⟨texture, w, h⟩

/-- theme.py line 351, the branch of `Theme._update_with_images` for an
`image`-prefixed key whose value is a plain string `v`:
`target[k] = TextureGraphicElementTemplate(self, self._get_texture(v))`.
The Theme instance `self` is passed as the `texture` argument and the
fetched texture as the `width` argument; `height` is left at its `None`
default.  `dims` gives the decoded pixel size of each source file. -/
def updateWithImageString (s : ThemeState) (v : String) (dims : String → Int × Int) :
    Option TextureGraphicElementTemplate × ThemeState :=
  let r := themeGetTexture s v
  (textureTemplateInit PyVal.themeObj
      (PyVal.tex r.1 (dims v).1 (dims v).2) PyVal.pynone,
   r.2)

/-! Helper lemmas shared by the claim theorems. -/

theorem lookupEntries_upsert_self : ∀ (es : Entries) (a : String) (v : Val),
    lookupEntries (upsertEntries es a v) a = some v
  | .nil, a, v => by simp [upsertEntries, lookupEntries]
  | .cons k' v' rest, a, v => by
    by_cases h : a = k'
    · simp [upsertEntries, lookupEntries, h]
    · simp [upsertEntries, lookupEntries, h, lookupEntries_upsert_self rest a v]

theorem lookupEntries_upsert_ne : ∀ (es : Entries) (a k : String) (v : Val),
    k ≠ a → lookupEntries (upsertEntries es a v) k = lookupEntries es k
  | .nil, a, k, v, h => by simp [upsertEntries, lookupEntries, h]
  | .cons k' v' rest, a, k, v, h => by
    by_cases h2 : a = k'
    · subst h2
      simp [upsertEntries, lookupEntries, h]
    · simp [upsertEntries, lookupEntries, h2, lookupEntries_upsert_ne rest a k v h]

theorem set_path_append (S : ScopedDict) (p : List String) (a : String) (v : Val) :
    S.set_path (p ++ [a]) v = (navigateSegs S p).map (fun d => d.setItem a v) := by
  induction p generalizing S with
  | nil => rfl
  | cons k rest ih =>
    cases rest with
    | nil =>
      rcases hh : S.getItem k with e | w
      · simp [ScopedDict.set_path, navigateSegs, hh, Except.map]
      · cases w with
        | dict d => simp [ScopedDict.set_path, navigateSegs, hh, Except.map]
        | pynone => simp [ScopedDict.set_path, navigateSegs, hh, Except.map]
        | leaf n => simp [ScopedDict.set_path, navigateSegs, hh, Except.map]
    | cons k2 r2 =>
      rcases hh : S.getItem k with e | w
      · simp [ScopedDict.set_path, navigateSegs, hh, Except.map]
      · cases w with
        | dict d => simpa [ScopedDict.set_path, navigateSegs, hh, Except.map] using ih d
        | pynone => simp [ScopedDict.set_path, navigateSegs, hh, Except.map]
        | leaf n => simp [ScopedDict.set_path, navigateSegs, hh, Except.map]

theorem get_ok_of_get_ne_default : ∀ (S : ScopedDict) (k : String) (dflt v : Val),
    S.get k dflt = v → v ≠ dflt → S.getItem k = .ok v
  | .mk es p, k, dflt, v, h, hne => by
    cases p with
    | null =>
      simp only [ScopedDict.get] at h
      cases hl : lookupEntries es k with
      | some w =>
        rw [hl] at h
        have h2 : w = v := h
        simp [ScopedDict.getItem, hl, h2]
      | none =>
        rw [hl] at h
        have h2 : dflt = v := h
        exact absurd h2.symm hne
    | link par =>
      simp only [ScopedDict.get] at h
      cases hl : lookupEntries es k with
      | some w =>
        rw [hl] at h
        have h2 : w = v := h
        simp [ScopedDict.getItem, hl, h2]
      | none =>
        rw [hl] at h
        have h2 : (if par.entriesOf.isEmpty = true then dflt else par.get k dflt) = v := h
        by_cases hemp : par.entriesOf.isEmpty = true
        · rw [if_pos hemp] at h2
          exact absurd h2.symm hne
        · rw [if_neg hemp] at h2
          have hrec := get_ok_of_get_ne_default par k dflt v h2 hne
          simp [ScopedDict.getItem, hl, hrec]

theorem col_exists (e : FrameTextureGraphicElement) (px : Int)
    (hl : 0 ≤ e.marginLeft) (hr : 0 ≤ e.marginRight)
    (hW : e.marginLeft + e.marginRight ≤ e.width)
    (h1 : e.x ≤ px) (h2 : px < e.x + e.width) :
    ∃ i, i < 3 ∧ colBound e i ≤ px ∧ px < colBound e (i + 1) := by
  by_cases c1 : px < e.x + e.marginLeft
  · refine ⟨0, by omega, ?_, ?_⟩ <;> simp only [colBound] <;> norm_num <;> omega
  · by_cases c2 : px < e.x + e.width - e.marginRight
    · refine ⟨1, by omega, ?_, ?_⟩ <;> simp only [colBound] <;> norm_num <;> omega
    · refine ⟨2, by omega, ?_, ?_⟩ <;> simp only [colBound] <;> norm_num <;> omega

theorem row_exists (e : FrameTextureGraphicElement) (py : Int)
    (hb : 0 ≤ e.marginBottom) (ht : 0 ≤ e.marginTop)
    (hH : e.marginTop + e.marginBottom ≤ e.height)
    (h1 : e.y ≤ py) (h2 : py < e.y + e.height) :
    ∃ j, j < 3 ∧ rowBound e j ≤ py ∧ py < rowBound e (j + 1) := by
  by_cases c1 : py < e.y + e.marginBottom
  · refine ⟨0, by omega, ?_, ?_⟩ <;> simp only [rowBound] <;> norm_num <;> omega
  · by_cases c2 : py < e.y + e.height - e.marginTop
    · refine ⟨1, by omega, ?_, ?_⟩ <;> simp only [rowBound] <;> norm_num <;> omega
    · refine ⟨2, by omega, ?_, ?_⟩ <;> simp only [rowBound] <;> norm_num <;> omega

theorem col_in_range (e : FrameTextureGraphicElement) (i : Nat) (px : Int)
    (hi : i < 3) (hl : 0 ≤ e.marginLeft) (hr : 0 ≤ e.marginRight)
    (hW : e.marginLeft + e.marginRight ≤ e.width)
    (h : colBound e i ≤ px ∧ px < colBound e (i + 1)) :
    e.x ≤ px ∧ px < e.x + e.width := by
  interval_cases i <;> simp only [colBound] at h <;> norm_num at h <;> constructor <;> omega

theorem row_in_range (e : FrameTextureGraphicElement) (j : Nat) (py : Int)
    (hj : j < 3) (hb : 0 ≤ e.marginBottom) (ht : 0 ≤ e.marginTop)
    (hH : e.marginTop + e.marginBottom ≤ e.height)
    (h : rowBound e j ≤ py ∧ py < rowBound e (j + 1)) :
    e.y ≤ py ∧ py < e.y + e.height := by
  interval_cases j <;> simp only [rowBound] at h <;> norm_num at h <;> constructor <;> omega

theorem col_unique (e : FrameTextureGraphicElement) (i i' : Nat) (px : Int)
    (hi : i < 3) (hi' : i' < 3)
    (hW : e.marginLeft + e.marginRight ≤ e.width)
    (h : colBound e i ≤ px ∧ px < colBound e (i + 1))
    (h' : colBound e i' ≤ px ∧ px < colBound e (i' + 1)) : i = i' := by
  interval_cases i <;> interval_cases i' <;>
    simp only [colBound] at h h' <;> norm_num at h h' <;> omega

theorem row_unique (e : FrameTextureGraphicElement) (j j' : Nat) (py : Int)
    (hj : j < 3) (hj' : j' < 3)
    (hH : e.marginTop + e.marginBottom ≤ e.height)
    (h : rowBound e j ≤ py ∧ py < rowBound e (j + 1))
    (h' : rowBound e j' ≤ py ∧ py < rowBound e (j' + 1)) : j = j' := by
  interval_cases j <;> interval_cases j' <;>
    simp only [rowBound] at h h' <;> norm_num at h h' <;> omega

theorem cacheLookup_after_get (s : ThemeState) (fn : String) :
    cacheLookup (themeGetTexture s fn).2.textures fn = some (themeGetTexture s fn).1 := by
  cases h : cacheLookup s.textures fn with
  | some tid => simp [themeGetTexture, h]
  | none => simp [themeGetTexture, h, cacheLookup]

/-! Claim theorems. -/

/-- C2 counterexample: the claim "when K is absent in S and S has a
parent, `S.get(K, default)` returns exactly what the parent's
`get(K, default)` returns" is false on the code.  Take
`GP = ScopedDict({"k": 1})`, `P = ScopedDict({}, GP)`,
`S = ScopedDict({}, P)`.  Then `"k"` is absent in `S` and `S` has
parent `P`, but `S.get("k", 0)` is `0` (the default) while
`P.get("k", 0)` is `1`: `elif self.parent:` tests truthiness, and an
empty parent dict is falsy, so the delegation stops at `P`. -/
theorem c2_counterexample :
    (ScopedDict.mk .nil (.link (ScopedDict.mk .nil
        (.link (ScopedDict.mk (.cons "k" (Val.leaf 1) .nil) .null))))).parentOf
      = .link (ScopedDict.mk .nil (.link (ScopedDict.mk (.cons "k" (Val.leaf 1) .nil) .null))) ∧
    lookupEntries (ScopedDict.mk .nil (.link (ScopedDict.mk .nil
        (.link (ScopedDict.mk (.cons "k" (Val.leaf 1) .nil) .null))))).entriesOf "k" = none ∧
    (ScopedDict.mk .nil (.link (ScopedDict.mk .nil
        (.link (ScopedDict.mk (.cons "k" (Val.leaf 1) .nil) .null))))).get "k" (Val.leaf 0)
      = Val.leaf 0 ∧
    (ScopedDict.mk .nil (.link (ScopedDict.mk (.cons "k" (Val.leaf 1) .nil) .null))).get
        "k" (Val.leaf 0)
      = Val.leaf 1 ∧
    Val.leaf 0 ≠ Val.leaf 1 := by
  refine ⟨rfl, rfl, rfl, rfl, ?_⟩
  intro h
  injection h with h'
  exact absurd h' (by decide)

/-- C2 (amended): `S.get(K, default)` returns the locally stored value
when K is present in S; when K is absent and S has a *non-empty* parent
P it returns exactly `P.get(K, default)`; when K is absent and the
parent is absent or empty (an empty dict is falsy in
`elif self.parent:`) it returns the caller-supplied default. -/
theorem c2_scoped_get_amended (S : ScopedDict) (k : String) (dflt : Val) :
    (∀ v, lookupEntries S.entriesOf k = some v → S.get k dflt = v) ∧
    (∀ P, lookupEntries S.entriesOf k = none → S.parentOf = .link P →
        P.entriesOf ≠ .nil → S.get k dflt = P.get k dflt) ∧
    (∀ P, lookupEntries S.entriesOf k = none → S.parentOf = .link P →
        P.entriesOf = .nil → S.get k dflt = dflt) ∧
    (lookupEntries S.entriesOf k = none → S.parentOf = .null → S.get k dflt = dflt) := by
  obtain ⟨es, p⟩ := S
  refine ⟨?_, ?_, ?_, ?_⟩
  · intro v hv
    simp only [ScopedDict.entriesOf] at hv
    cases p with
    | null => simp [ScopedDict.get, hv]
    | link par => simp [ScopedDict.get, hv]
  · intro P hv hp hne
    simp only [ScopedDict.entriesOf] at hv
    simp only [ScopedDict.parentOf] at hp
    subst hp
    obtain ⟨pes, pp⟩ := P
    cases pes with
    | nil => simp [ScopedDict.entriesOf] at hne
    | cons k2 v2 rest =>
      simp [ScopedDict.get, hv, ScopedDict.entriesOf, Entries.isEmpty]
  · intro P hv hp hemp
    simp only [ScopedDict.entriesOf] at hv
    simp only [ScopedDict.parentOf] at hp
    subst hp
    obtain ⟨pes, pp⟩ := P
    simp only [ScopedDict.entriesOf] at hemp
    subst hemp
    simp [ScopedDict.get, hv, ScopedDict.entriesOf, Entries.isEmpty]
  · intro hv hp
    simp only [ScopedDict.entriesOf] at hv
    simp only [ScopedDict.parentOf] at hp
    subst hp
    simp [ScopedDict.get, hv]

/-- Witness for `c2_scoped_get_amended` at concrete stores: a local hit
shadows, and a non-empty parent is delegated to. -/
theorem c2_scoped_get_amended_witness :
    (ScopedDict.mk (.cons "k" (Val.leaf 5) .nil) .null).get "k" (Val.leaf 0) = Val.leaf 5 ∧
    (ScopedDict.mk .nil (.link (ScopedDict.mk (.cons "k" (Val.leaf 1) .nil) .null))).get
        "k" (Val.leaf 0)
      = (ScopedDict.mk (.cons "k" (Val.leaf 1) .nil) .null).get "k" (Val.leaf 0) := by
  constructor
  · exact (c2_scoped_get_amended (ScopedDict.mk (.cons "k" (Val.leaf 5) .nil) .null) "k"
      (Val.leaf 0)).1 (Val.leaf 5) rfl
  · exact (c2_scoped_get_amended
      (ScopedDict.mk .nil (.link (ScopedDict.mk (.cons "k" (Val.leaf 1) .nil) .null)))
      "k" (Val.leaf 0)).2.1 (ScopedDict.mk (.cons "k" (Val.leaf 1) .nil) .null) rfl rfl
      (by intro h; injection h)

/-- C3: `set_path` writes only into the store reached by resolving the
leading path segments (each through `__getitem__`): for any leading
segments `p` and final segment `a`, `set_path (p ++ [a]) v` is exactly
"navigate `p`, then do a local `__setitem__` of `a` on the reached
store".  The local write leaves the `parent` attribute unchanged,
binds `a` to `v`, and changes no other local key; in particular after
`S.set_path([a], v)` (the case `p = []`) the parent of `S` is untouched
and does not contain `a` unless it already did. -/
theorem c3_set_path_writes_locally (S : ScopedDict) (p : List String) (a : String) (v : Val) :
    S.set_path (p ++ [a]) v = (navigateSegs S p).map (fun d => d.setItem a v) ∧
    (S.setItem a v).parentOf = S.parentOf ∧
    lookupEntries (S.setItem a v).entriesOf a = some v ∧
    (∀ k, k ≠ a → lookupEntries (S.setItem a v).entriesOf k = lookupEntries S.entriesOf k) := by
  refine ⟨set_path_append S p a v, rfl, lookupEntries_upsert_self _ a v, ?_⟩
  intro k hk
  exact lookupEntries_upsert_ne _ a k v hk

/-- Witness for `c3_set_path_writes_locally`: a singleton-path write on
a store with a parent is local, the parent snapshot is unchanged and
still does not contain the written key. -/
theorem c3_set_path_writes_locally_witness :
    (ScopedDict.mk .nil (.link (ScopedDict.mk (.cons "b" (Val.leaf 2) .nil) .null))).set_path
        ["a"] (Val.leaf 9)
      = .ok ((ScopedDict.mk .nil (.link (ScopedDict.mk (.cons "b" (Val.leaf 2) .nil) .null))).setItem
          "a" (Val.leaf 9)) ∧
    ((ScopedDict.mk .nil (.link (ScopedDict.mk (.cons "b" (Val.leaf 2) .nil) .null))).setItem
        "a" (Val.leaf 9)).parentOf
      = .link (ScopedDict.mk (.cons "b" (Val.leaf 2) .nil) .null) ∧
    lookupEntries ((ScopedDict.mk .nil (.link (ScopedDict.mk (.cons "b" (Val.leaf 2) .nil) .null))).setItem
        "a" (Val.leaf 9)).entriesOf "b"
      = lookupEntries (ScopedDict.mk .nil
          (.link (ScopedDict.mk (.cons "b" (Val.leaf 2) .nil) .null))).entriesOf "b" := by
  have h := c3_set_path_writes_locally
    (ScopedDict.mk .nil (.link (ScopedDict.mk (.cons "b" (Val.leaf 2) .nil) .null))) [] "a"
    (Val.leaf 9)
  exact ⟨h.1, h.2.1, h.2.2.2 "b" (by decide)⟩

/-- C7: for every frame element and non-negative requested content size,
`get_content_size` applied to `get_needed_size`'s result dominates the
request componentwise, and `get_needed_size` is the per-axis maximum of
content-plus-padding and the outer texture's natural size. -/
theorem c7_needed_size_roundtrip (e : FrameTextureGraphicElement) (cw ch : Int)
    (hw : 0 ≤ cw) (hh : 0 ≤ ch) : NeededSizeRoundTrip e cw ch := by
  refine ⟨?_, ?_, rfl⟩
  · have h1 := le_max_left (cw + e.padLeft + e.padRight) e.outerWidth
    simp only [FrameTextureGraphicElement.get_content_size,
      FrameTextureGraphicElement.get_needed_size]
    omega
  · have h1 := le_max_left (ch + e.padTop + e.padBottom) e.outerHeight
    simp only [FrameTextureGraphicElement.get_content_size,
      FrameTextureGraphicElement.get_needed_size]
    omega

/-- Witness for `c7_needed_size_roundtrip` at a concrete element whose
natural texture size (8×8) exceeds content 2×3 plus padding 1+1. -/
theorem c7_needed_size_roundtrip_witness :
    NeededSizeRoundTrip ⟨0, 0, 0, 0, 0, 0, 0, 0, 1, 1, 1, 1, 8, 8⟩ 2 3 :=
  c7_needed_size_roundtrip ⟨0, 0, 0, 0, 0, 0, 0, 0, 1, 1, 1, 1, 8, 8⟩ 2 3
    (by decide) (by decide)

/-- C9: `get` called with a path of length 0 raises KeyError
(theme.py line 253), while `__getitem__` with an empty path returns the
store itself (line 230), so `S[[]][K]` is the same lookup as `S[K]`. -/
theorem c9_empty_path (S : ScopedDict) (dflt : Val) (K : String) :
    S.getList [] dflt = .error .keyError ∧
    S.getItemPath [] = .ok (Val.dict S) ∧
    indexVal (S.getItemPath []) K = S.getItem K :=
  ⟨rfl, rfl, rfl⟩

/-- C10: when the first path segment `a` is absent locally but
`__getitem__` resolves it through the scope chain to a nested store `D`
(so `D` comes from an ancestor), all four path operations —
`S[[a, b]]`, `S.get([a, b], default)`, `S.get_path([a, b], default)`
and `S.set_path([a, b], v)` — continue through that ancestor's nested
store `D` rather than failing or stopping at `S`. -/
theorem c10_intermediate_scope_fallback (S D : ScopedDict) (a b : String)
    (v dflt : Val)
    (hlocal : lookupEntries S.entriesOf a = none)
    (hres : S.getItem a = .ok (Val.dict D)) :
    S.getItemPath [a, b] = D.getItem b ∧
    S.getList [a, b] dflt = .ok (D.get b dflt) ∧
    S.get_path [a, b] dflt = .ok (D.get b dflt) ∧
    S.set_path [a, b] v = .ok (D.setItem b v) := by
  refine ⟨?_, ?_, ?_, ?_⟩ <;>
    simp [ScopedDict.getItemPath, ScopedDict.getList, ScopedDict.get_path,
      ScopedDict.set_path, hres]

/-- Witness for `c10_intermediate_scope_fallback`: `S` is empty with a
parent binding `"a"` to the nested store `{"b": 7}`. -/
theorem c10_intermediate_scope_fallback_witness :
    (ScopedDict.mk .nil (.link (ScopedDict.mk
        (.cons "a" (Val.dict (ScopedDict.mk (.cons "b" (Val.leaf 7) .nil) .null)) .nil)
        .null))).getList ["a", "b"] (Val.leaf 0)
    = .ok ((ScopedDict.mk (.cons "b" (Val.leaf 7) .nil) .null).get "b" (Val.leaf 0)) :=
  (c10_intermediate_scope_fallback
    (ScopedDict.mk .nil (.link (ScopedDict.mk
        (.cons "a" (Val.dict (ScopedDict.mk (.cons "b" (Val.leaf 7) .nil) .null)) .nil)
        .null)))
    (ScopedDict.mk (.cons "b" (Val.leaf 7) .nil) .null) "a" "b" (Val.leaf 1) (Val.leaf 0)
    rfl rfl).2.1

/-- C1: for every frame element with non-negative margins
`(l, r, t, b)` and integer outer bounds `(x, y, W, H)` with `W ≥ l + r`
and `H ≥ t + b`, the 36 vertices of `_get_vertices` form nine
axis-aligned cells on the column boundaries `x, x+l, x+W-r, x+W` and
row boundaries `y, y+b, y+H-t, y+H`; the nine cells tile the outer
rectangle exactly (full cover, no overlap), and the corner cells have
sizes `l×b`, `r×b`, `l×t`, `r×t` independent of `W` and `H`. -/
theorem c1_nine_slice_tiling (e : FrameTextureGraphicElement)
    (hl : 0 ≤ e.marginLeft) (hr : 0 ≤ e.marginRight)
    (ht : 0 ≤ e.marginTop) (hb : 0 ≤ e.marginBottom)
    (hW : e.marginLeft + e.marginRight ≤ e.width)
    (hH : e.marginTop + e.marginBottom ≤ e.height) :
    NineSliceTiling e := by
  refine ⟨rfl, ?_, ?_, ?_⟩
  · intro px py
    constructor
    · rintro ⟨h1, h2, h3, h4⟩
      obtain ⟨i, hi, hcol⟩ := col_exists e px hl hr hW h1 h2
      obtain ⟨j, hj, hrow⟩ := row_exists e py hb ht hH h3 h4
      exact ⟨i, j, hi, hj, hcol.1, hcol.2, hrow.1, hrow.2⟩
    · rintro ⟨i, j, hi, hj, hc1, hc2, hc3, hc4⟩
      have hx := col_in_range e i px hi hl hr hW ⟨hc1, hc2⟩
      have hy := row_in_range e j py hj hb ht hH ⟨hc3, hc4⟩
      exact ⟨hx.1, hx.2, hy.1, hy.2⟩
  · intro i j i' j' px py hi hj hi' hj' hc hc'
    obtain ⟨hc1, hc2, hc3, hc4⟩ := hc
    obtain ⟨hc1', hc2', hc3', hc4'⟩ := hc'
    exact ⟨col_unique e i i' px hi hi' hW ⟨hc1, hc2⟩ ⟨hc1', hc2'⟩,
           row_unique e j j' py hj hj' hH ⟨hc3, hc4⟩ ⟨hc3', hc4'⟩⟩
  · refine ⟨?_, ?_, ?_, ?_⟩ <;> simp only [colBound, rowBound] <;> norm_num

/-- Witness for `c1_nine_slice_tiling`: margins (2, 3, 1, 2) in a
10×8 outer rectangle at (0, 0). -/
theorem c1_nine_slice_tiling_witness :
    NineSliceTiling ⟨0, 0, 10, 8, 2, 3, 1, 2, 0, 0, 0, 0, 0, 0⟩ :=
  c1_nine_slice_tiling ⟨0, 0, 10, 8, 2, 3, 1, 2, 0, 0, 0, 0, 0, 0⟩
    (by decide) (by decide) (by decide) (by decide) (by decide) (by decide)

/-- C4 counterexample: starting from an empty texture state, two image
specifications naming the same source filename `"a.png"` and the
identical region `(0, 0, 4, 4)` do NOT receive the same texture object:
`_get_texture_region` builds a fresh region object on every call (ids 1
and 2 here); only the underlying whole texture (id 0) is cached, and
the `_textures` cache is keyed by filename alone. -/
theorem c4_counterexample :
    (themeGetTextureRegion ⟨[], 0, []⟩ "a.png" 0 0 4 4).1 = 1 ∧
    (themeGetTextureRegion (themeGetTextureRegion ⟨[], 0, []⟩ "a.png" 0 0 4 4).2
        "a.png" 0 0 4 4).1 = 2 ∧
    (1 : Nat) ≠ 2 :=
  ⟨rfl, rfl, by decide⟩

/-- C4 (amended): the texture cache is keyed by source filename alone.
A repeated whole-texture request for the same filename returns the
identical cached texture object with no state change (hence no
re-decode); a repeated region request for the same filename — whatever
the region values — never re-decodes the source (the decode log is
unchanged), but it returns a fresh region object, distinct from the one
returned before, even when the region is identical. -/
theorem c4_texture_cache_amended (s : ThemeState) (fn : String)
    (x y w h x2 y2 w2 h2 : Int) :
    themeGetTexture (themeGetTexture s fn).2 fn
      = ((themeGetTexture s fn).1, (themeGetTexture s fn).2) ∧
    (themeGetTextureRegion (themeGetTextureRegion s fn x y w h).2 fn x2 y2 w2 h2).2.decodes
      = (themeGetTextureRegion s fn x y w h).2.decodes ∧
    (themeGetTextureRegion (themeGetTextureRegion s fn x y w h).2 fn x2 y2 w2 h2).1
      ≠ (themeGetTextureRegion s fn x y w h).1 := by
  have hc := cacheLookup_after_get s fn
  simp only [themeGetTextureRegion]
  generalize themeGetTexture s fn = r at hc ⊢
  refine ⟨?_, ?_, ?_⟩
  · simp [themeGetTexture, hc]
  · simp [themeGetTexture, hc]
  · simp [themeGetTexture, hc]

/-- C5 is a code bug: for an `image`-prefixed key whose value is a
plain string, theme.py line 351 calls
`TextureGraphicElementTemplate(self, self._get_texture(v))`, passing
the Theme instance itself as the `texture` argument and the fetched
texture as the `width` argument. The constructor then evaluates
`height or texture.height` with `height = None` and `texture = self`,
and a Theme (a dict subclass) has no `height` attribute, so theme
construction raises AttributeError instead of storing a template whose
texture is the fetched texture: the constructed template is `none` for
every state, filename and decoded size. -/
theorem c5_string_image_template_bug (s : ThemeState) (v : String)
    (dims : String → Int × Int) :
    (updateWithImageString s v dims).1 = none := by
  simp [updateWithImageString, textureTemplateInit, pyTruthy, heightAttr, widthAttr]

/-- C6 counterexample: calling `update` after `unload` does NOT fail
fast.  On a loaded 4×4 element at the origin, `unload` succeeds, and
the subsequent `update(1, 2, 3, 4)` completes normally (`some` result,
no assertion): it stores the new bounds and, because
`self._vertex_list is None`, silently skips the geometry write. -/
theorem c6_counterexample :
    ((⟨0, 0, 4, 4, some [(0, 0), (4, 0), (4, 4), (0, 4)], true⟩ :
        TextureGraphicElement).unload).bind
      (fun e1 => e1.update 1 2 3 4)
    = some ⟨1, 2, 3, 4, none, false⟩ := rfl

/-- C6 (amended): after `unload` (i.e. with no live vertex list), a
call to `update` completes normally — it records the new bounds and
performs no geometry write, leaving the vertex list empty — rather
than failing fast; by contrast, calling `_load` twice without an
intervening `unload` does fail fast via
`assert self._vertex_list is None`. -/
theorem c6_update_after_unload_amended (e : TextureGraphicElement)
    (x y w h : Int) :
    (e.vertexList = none →
        e.update x y w h
          = some { e with x := x, y := y, width := w, height := h }) ∧
    (∀ l, e.vertexList = some l → e.load = none) := by
  constructor
  · intro hv
    simp [TextureGraphicElement.update, hv]
  · intro l hv
    simp [TextureGraphicElement.load, hv]

/-- Witness for `c6_update_after_unload_amended`: an unloaded element
accepts `update`; a loaded element rejects a second `_load`. -/
theorem c6_update_after_unload_amended_witness :
    (⟨0, 0, 4, 4, none, false⟩ : TextureGraphicElement).update 1 2 3 4
      = some ⟨1, 2, 3, 4, none, false⟩ ∧
    (⟨0, 0, 4, 4, some [(0, 0), (4, 0), (4, 4), (0, 4)], true⟩ :
        TextureGraphicElement).load = none := by
  constructor
  · exact (c6_update_after_unload_amended ⟨0, 0, 4, 4, none, false⟩ 1 2 3 4).1 rfl
  · exact (c6_update_after_unload_amended
      ⟨0, 0, 4, 4, some [(0, 0), (4, 0), (4, 4), (0, 4)], true⟩ 1 2 3 4).2
      [(0, 0), (4, 0), (4, 4), (0, 4)] rfl

/-- C8: path resolution is associative.  When the first two traversed
segments resolve to nested stores (`S.get(a)` is the store `D` and
`D.get(b)` is the store `D2`), the three evaluations
`S.get([a, b, c], default)`, `S.get(a).get([b, c], default)` and
`S.get(a).get(b).get([c], default)` agree: the first equals
`D.get([b, c], default)`, which in turn equals `D2.get([c], default)`. -/
theorem c8_path_resolution_assoc (S D D2 : ScopedDict) (a b c : String)
    (dflt : Val)
    (h1 : S.get a Val.pynone = Val.dict D)
    (h2 : D.get b Val.pynone = Val.dict D2) :
    S.getList [a, b, c] dflt = D.getList [b, c] dflt ∧
    D.getList [b, c] dflt = D2.getList [c] dflt := by
  have hA : S.getItem a = .ok (Val.dict D) :=
    get_ok_of_get_ne_default S a Val.pynone (Val.dict D) h1
      (fun hx => Val.noConfusion hx)
  have hB : D.getItem b = .ok (Val.dict D2) :=
    get_ok_of_get_ne_default D b Val.pynone (Val.dict D2) h2
      (fun hx => Val.noConfusion hx)
  constructor
  · simp [ScopedDict.getList, hA]
  · simp [ScopedDict.getList, hB]

/-- Witness for `c8_path_resolution_assoc` on the concrete nesting
`{"a": {"b": {"c": 3}}}`. -/
theorem c8_path_resolution_assoc_witness :
    (ScopedDict.mk (.cons "a" (Val.dict (ScopedDict.mk
        (.cons "b" (Val.dict (ScopedDict.mk (.cons "c" (Val.leaf 3) .nil) .null)) .nil)
        .null)) .nil) .null).getList ["a", "b", "c"] (Val.leaf 0)
      = (ScopedDict.mk
          (.cons "b" (Val.dict (ScopedDict.mk (.cons "c" (Val.leaf 3) .nil) .null)) .nil)
          .null).getList ["b", "c"] (Val.leaf 0) ∧
    (ScopedDict.mk
        (.cons "b" (Val.dict (ScopedDict.mk (.cons "c" (Val.leaf 3) .nil) .null)) .nil)
        .null).getList ["b", "c"] (Val.leaf 0)
      = (ScopedDict.mk (.cons "c" (Val.leaf 3) .nil) .null).getList ["c"] (Val.leaf 0) :=
  c8_path_resolution_assoc
    (ScopedDict.mk (.cons "a" (Val.dict (ScopedDict.mk
        (.cons "b" (Val.dict (ScopedDict.mk (.cons "c" (Val.leaf 3) .nil) .null)) .nil)
        .null)) .nil) .null)
    (ScopedDict.mk
        (.cons "b" (Val.dict (ScopedDict.mk (.cons "c" (Val.leaf 3) .nil) .null)) .nil)
        .null)
    (ScopedDict.mk (.cons "c" (Val.leaf 3) .nil) .null)
    "a" "b" "c" (Val.leaf 0) rfl rfl

end PygletGui
